import Mathlib

/-!
Shallow embedding of the EPR report pipeline in `src/app.py`.

The program reads a CSV of shipment rows, validates that the
`SHIP_TO_COUNTRY_CODE` column exists, filters to one selected country,
zero-fills the seven material-weight columns, groups by `EPR_CATEGORY`
summing `TOTAL_UNITS_SOLD` plus the seven material columns, reindexes
onto the fixed category list, derives `Total_Weight_KG`, appends a grand
total row, and formats the result for display.

Numeric cells are modelled as rationals (exact arithmetic); a missing
cell (pandas NaN) is `Option.none`.  A DataFrame with possibly-absent
columns is modelled as a list of rows plus one presence flag per
optional column; when a column's flag is false the corresponding cell
values in the rows are irrelevant (downstream code consults the flag,
as the python consults `df.columns`).
-/

/-- The seven material-weight columns (`material_cols` in app.py). -/
inductive Material : Type
  | paper
  | plastic
  | glass
  | aluminum
  | steel
  | wood
  | other
deriving DecidableEq, Fintype, Repr

/-- The fixed order of `material_cols` in app.py:
`['PAPER_KG', 'PLASTIC_KG', 'GLASS_KG', 'ALUMINUM_KG', 'STEEL_KG', 'WOOD_KG', 'OTHER_KG']`. -/
def materialCols : List Material :=
  [.paper, .plastic, .glass, .aluminum, .steel, .wood, .other]

/-- One raw CSV row.  String cells may be missing (NaN); numeric cells may
be missing (NaN).  Cells of columns that are absent from the file are
irrelevant (see `RawTable`). -/
structure RawRow : Type where
  country : Option String
  category : Option String
  units : Option ℚ
  material : Material → Option ℚ

/-- The parsed CSV: rows plus presence flags for the optional columns.
`SHIP_TO_COUNTRY_CODE` presence is `hasCountry`; `EPR_CATEGORY` is
`hasCategory`; `TOTAL_UNITS_SOLD` is `hasUnits`; each of the seven
material columns has its own flag. -/
structure RawTable : Type where
  hasCountry : Bool
  hasCategory : Bool
  hasUnits : Bool
  hasMaterial : Material → Bool
  rows : List RawRow

/-- Insert a string into an already ascending list (helper for the
model of python `list.sort()`). -/
def insertSorted (s : String) : List String → List String
  | [] => [s]
  | x :: xs => if s ≤ x then s :: x :: xs else x :: insertSorted s xs

/-- Ascending insertion sort, modelling `available_countries.sort()`. -/
def sortStrings : List String → List String
  | [] => []
  | x :: xs => insertSorted x (sortStrings xs)

/-- `df['SHIP_TO_COUNTRY_CODE'].dropna().unique().tolist()` then `.sort()`:
the distinct non-missing country codes, sorted ascending. -/
def availableCountries (t : RawTable) : List String :=
  sortStrings ((t.rows.filterMap RawRow.country).dedup)

/-- A row after Filter-and-Normalize: the seven material cells are
definite rationals (absent column or missing cell replaced by 0).
`TOTAL_UNITS_SOLD` is untouched by the fill loop, so it can still be
missing; pandas `sum` later skips NaN. -/
structure NormRow : Type where
  category : Option String
  units : Option ℚ
  material : Material → ℚ

/-- The `for col in material_cols` loop body applied to one row:
`if col not in df_target.columns: df_target[col] = 0.0` then
`df_target[col] = df_target[col].fillna(0.0)`. -/
def normalizeRow (t : RawTable) (r : RawRow) : NormRow :=
  { category := r.category
    units := r.units
    material := fun m => if t.hasMaterial m then (r.material m).getD 0 else 0 }

/-- `df_target = df[df['SHIP_TO_COUNTRY_CODE'] == selected_country]`:
rows whose country cell equals the selected value (a NaN cell compares
unequal to every value in pandas, so `none` never matches). -/
def filterRows (t : RawTable) (sel : String) : List RawRow :=
  t.rows.filter (fun r => r.country = some sel)

/-- Filter-and-Normalize stage: country filter followed by the
material-column default-fill loop. -/
def filterNormalize (t : RawTable) (sel : String) : List NormRow :=
  (filterRows t sel).map (normalizeRow t)

/-- The fixed category list `target_categories` of app.py. -/
def targetCategories : List String :=
  ["Primary Packaging", "Secondary Packaging"]

/-- The rows of `groupby('EPR_CATEGORY')` falling in group `c`:
pandas groups by non-missing keys only (`dropna=True` default), so a
row belongs to group `c` iff its category cell is `some c`. -/
def groupRows (rows : List NormRow) (c : String) : List NormRow :=
  rows.filter (fun r => r.category = some c)

/-- One row of the grouped-and-reindexed frame: the summed numeric
columns (`TOTAL_UNITS_SOLD` plus the seven materials). -/
@[ext]
structure SumRow : Type where
  units : ℚ
  material : Material → ℚ
deriving DecidableEq

/-- The zero row `reindex` inserts for a fixed category absent from the
grouped result (`fill_value=0`). -/
def zeroSumRow : SumRow :=
  { units := 0, material := fun _ => 0 }

/-- The row of `grouped.reindex(target_categories, fill_value=0)` for
category `c`: pandas `sum` of each numeric column over the rows of
group `c`, skipping NaN in `TOTAL_UNITS_SOLD`.  When group `c` is empty
the sums are 0, which coincides with the `fill_value=0` row `reindex`
inserts for a category that had no group. -/
def aggRow (rows : List NormRow) (c : String) : SumRow :=
  { units := ((groupRows rows c).map (fun r => r.units.getD 0)).sum
    material := fun m => ((groupRows rows c).map (fun r => r.material m)).sum }

/-- A labelled row of `df_final` before the total-weight column:
index label plus summed numeric columns. -/
@[ext]
structure LabeledRow : Type where
  label : String
  row : SumRow
deriving DecidableEq

/-- `df_final = grouped.reindex(target_categories, fill_value=0)`:
one row per fixed category, in the fixed order. -/
def reindexed (rows : List NormRow) : List LabeledRow :=
  targetCategories.map (fun c => { label := c, row := aggRow rows c })

/-- A row of `df_final` after `df_final['Total_Weight_KG'] =
df_final[material_cols].sum(axis=1)`. -/
@[ext]
structure FinalRow : Type where
  label : String
  units : ℚ
  material : Material → ℚ
  total : ℚ
deriving DecidableEq

/-- `df_final[material_cols].sum(axis=1)` for one row: the row's seven
material cells summed in the fixed column order. -/
def rowMaterialTotal (f : Material → ℚ) : ℚ :=
  (materialCols.map f).sum

/-- Total-Weight Deriver: attach `Total_Weight_KG` to each row. -/
def deriveTotals (rows : List LabeledRow) : List FinalRow :=
  rows.map (fun l =>
    { label := l.label
      units := l.row.units
      material := l.row.material
      total := rowMaterialTotal l.row.material })

/-- `grand_total_row = df_final.sum()` with name `'总计 (Grand Total)'`:
every numeric column (units, materials, and the already-derived total
column) summed down the rows present at that point. -/
def grandTotalRow (rows : List FinalRow) : FinalRow :=
  { label := "总计 (Grand Total)"
    units := (rows.map FinalRow.units).sum
    material := fun m => (rows.map (fun r => r.material m)).sum
    total := (rows.map FinalRow.total).sum }

/-- Steps 6–8 of app.py on the normalized rows: group + reindex, derive
`Total_Weight_KG`, append the grand-total row. -/
def buildReport (rows : List NormRow) : List FinalRow :=
  let base := deriveTotals (reindexed rows)
  base ++ [grandTotalRow base]

/-- `row_mapping` rename: the two category labels get bilingual names;
any other index label (the grand-total row) is left unchanged. -/
def rowMapping (s : String) : String :=
  if s = "Primary Packaging" then "Primary Packaging (一级/产品包装)"
  else if s = "Secondary Packaging" then "Secondary Packaging (二级/运输包装)"
  else s

/-- `COUNTRY_MAP`: the static code-to-display-name mapping. -/
def countryMap : List (String × String) :=
  [("DE", "德国 (DE)"), ("FR", "法国 (FR)"), ("ES", "西班牙 (ES)"),
   ("IT", "意大利 (IT)"), ("GB", "英国 (GB)"), ("UK", "英国 (UK)"),
   ("PL", "波兰 (PL)"), ("SE", "瑞典 (SE)"), ("NL", "荷兰 (NL)"),
   ("BE", "比利时 (BE)"), ("AT", "奥地利 (AT)"), ("US", "美国 (US)"),
   ("CA", "加拿大 (CA)"), ("JP", "日本 (JP)"), ("AU", "澳大利亚 (AU)"),
   ("AE", "阿联酋 (AE)"), ("SA", "沙特 (SA)"), ("SG", "新加坡 (SG)"),
   ("IE", "爱尔兰 (IE)"), ("PT", "葡萄牙 (PT)"), ("TR", "土耳其 (TR)"),
   ("MX", "墨西哥 (MX)"), ("BR", "巴西 (BR)"), ("IN", "印度 (IN)")]

/-- `COUNTRY_MAP.get(selected_country, selected_country)`. -/
def displayCountryName (sel : String) : String :=
  ((countryMap.lookup sel).getD sel)

/-- A row of `df_display`: the inserted country/site column, the
relabelled category column (from `reset_index` + `col_mapping`), and
the numeric columns. -/
@[ext]
structure DisplayRow : Type where
  site : String
  label : String
  units : ℚ
  material : Material → ℚ
  total : ℚ
deriving DecidableEq

/-- Presentation Formatter (step 9): `rename(index=row_mapping)`,
`reset_index()`, `insert(0, country column, display_country_name)`,
`rename(columns=col_mapping)`.  Column renaming is pure relabelling and
is reflected here only in field names. -/
def present (site : String) (rows : List FinalRow) : List DisplayRow :=
  rows.map (fun r =>
    { site := site
      label := rowMapping r.label
      units := r.units
      material := r.material
      total := r.total })

/-- What `pd.read_csv(file, encoding=e)` can do after `file.seek(0)`:
parse successfully, raise `UnicodeDecodeError` (an encoding mismatch),
or raise some other exception (e.g. a parser error).  Since the reader
seeks to the start before every attempt, the outcome is a function of
the encoding alone; a file is therefore modelled as such a function. -/
inductive ReadOutcome (α : Type) : Type
  | success (t : α)
  | unicodeError
  | otherError
deriving DecidableEq

/-- Observable effects of `load_csv_safe` on the stream, in order:
`seek0` is `file.seek(0)`, `attempt e` is the `pd.read_csv` call with
encoding `e`. -/
inductive Event : Type
  | seek0
  | attempt (enc : String)
deriving DecidableEq

/-- Result of `load_csv_safe`: `ok t e` is `return df, encoding`;
`decodeFailure` is the final `return None, None`; `raised` is an
exception other than `UnicodeDecodeError` propagating out (only
`UnicodeDecodeError` is caught by the loop). -/
inductive LoadResult (α : Type) : Type
  | ok (t : α) (enc : String)
  | decodeFailure
  | raised
deriving DecidableEq

/-- The `for encoding in encodings` loop of `load_csv_safe`, returning
the event trace together with the result. -/
def loadLoop {α : Type} (f : String → ReadOutcome α) :
    List String → List Event × LoadResult α
  | [] => ([], .decodeFailure)
  | e :: rest =>
    match f e with
    | .success t => ([.seek0, .attempt e], .ok t e)
    | .unicodeError =>
        let p := loadLoop f rest
        (.seek0 :: .attempt e :: p.1, p.2)
    | .otherError => ([.seek0, .attempt e], .raised)

/-- The fixed encoding preference list of `load_csv_safe`. -/
def encodings : List String :=
  ["utf-8", "gbk", "gb18030", "cp1252", "latin1"]

/-- `load_csv_safe(file)`. -/
def loadCsvSafe {α : Type} (f : String → ReadOutcome α) :
    List Event × LoadResult α :=
  loadLoop f encodings

/-- The event trace generated by attempting each encoding of a list in
order: a `seek(0)` immediately before every `read_csv` attempt. -/
def attemptTrace : List String → List Event
  | [] => []
  | e :: rest => Event.seek0 :: Event.attempt e :: attemptTrace rest

/-- The failures the script can surface before producing a table. -/
inductive PipeError : Type
  | schemaError (encoding : String)
  | emptySelection
  | keyError (col : String)
deriving DecidableEq

/-- The message shown for each failure.  `schemaError` is the
`st.error` at the `SHIP_TO_COUNTRY_CODE` check; `emptySelection` the one
at the `available_countries` check; `keyError` is the pandas `KeyError`
caught by the outer `except` and echoed via the generic handler. -/
def errorMessage : PipeError → String
  | .schemaError enc =>
      "❌ 错误：读取成功 (编码: " ++ enc ++
        ")，但找不到 \x27SHIP_TO_COUNTRY_CODE\x27 列。"
  | .emptySelection => "❌ 错误：文件中没有有效的国家代码数据。"
  | .keyError col => "❌ 发生程序错误: KeyError: " ++ col

/-- The whole per-request pipeline on a decoded table, selected country
`sel` and the encoding label `enc` (used only in the schema error
message).  Mirrors the script order: schema check, empty-country check,
filter + normalize, then the groupby — which raises `KeyError` if
`EPR_CATEGORY` is absent, and the column selection raises `KeyError` if
`TOTAL_UNITS_SOLD` is absent (the seven material columns are guaranteed
by the fill loop) — then reindex, derive, grand total, format. -/
def runPipeline (t : RawTable) (enc : String) (sel : String) :
    Except PipeError (List DisplayRow) :=
  if t.hasCountry = false then .error (.schemaError enc)
  else if availableCountries t = [] then .error .emptySelection
  else
    let rows := filterNormalize t sel
    if t.hasCategory = false then .error (.keyError "EPR_CATEGORY")
    else if t.hasUnits = false then .error (.keyError "TOTAL_UNITS_SOLD")
    else .ok (present (displayCountryName sel) (buildReport rows))


/-! ## Concrete tables used by witnesses and counterexamples -/

/-- A one-row table used to instantiate claims at a concrete input. -/
def sampleRow : RawRow :=
  { country := some "DE"
    category := some "Primary Packaging"
    units := some 10
    material := fun m => if m = .plastic then some 2 else none }
/-- A complete concrete table (all columns present). -/
def sampleTable : RawTable :=
  { hasCountry := true
    hasCategory := true
    hasUnits := true
    hasMaterial := fun _ => true
    rows := [sampleRow] }
/-- A table lacking the country column. -/
def noCountryTable : RawTable :=
  { sampleTable with hasCountry := false }
/-- A table whose country column exists but is entirely missing. -/
def noUsableCountryTable : RawTable :=
  { sampleTable with
      rows := [{ sampleRow with country := none }] }
/-- A table with one usable row plus one row whose category is missing. -/
def missingCategoryTable : RawTable :=
  { sampleTable with
      rows := [sampleRow, { sampleRow with category := none }] }
/-- A table with every column except `TOTAL_UNITS_SOLD`, and one
perfectly usable row: the input for the C2 counterexample. -/
def unitsMissingTable : RawTable :=
  { hasCountry := true
    hasCategory := true
    hasUnits := false
    hasMaterial := fun _ => true
    rows := [{ country := some "DE"
               category := some "Primary Packaging"
               units := none
               material := fun _ => some 1 }] }
/-- A table lacking the paper-weight column only. -/
def noPaperTable : RawTable :=
  { sampleTable with hasMaterial := fun m => m ≠ .paper }
/-! ## Helper lemmas -/

/-- A normalized row whose category label is one of the two fixed
target categories. -/
def recognizedRow (r : NormRow) : Bool :=
  targetCategories.any (fun c => r.category = some c)

/-- Dropping unrecognized-category rows does not change any target
category's group. -/
lemma groupRows_filter_recognized (rows : List NormRow) (c : String)
    (hc : c ∈ targetCategories) :
    groupRows (rows.filter recognizedRow) c = groupRows rows c := by
  induction rows with
  | nil => rfl
  | cons r rs ih =>
    by_cases h : r.category = some c
    · have hr : recognizedRow r = true := by
        simp only [recognizedRow, List.any_eq_true, decide_eq_true_eq]
        exact ⟨c, hc, h⟩
      simp [groupRows, List.filter_cons, h, hr] at ih ⊢
      exact ih
    · cases hr : recognizedRow r <;>
        (simp [groupRows, List.filter_cons, h, hr] at ih ⊢; exact ih)

/-- Rows whose category cell is missing belong to no group. -/
lemma groupRows_skips_none (pre post : List NormRow) (r : NormRow)
    (h : r.category = none) (c : String) :
    groupRows (pre ++ r :: post) c = groupRows (pre ++ post) c := by
  simp [groupRows, List.filter_append, List.filter_cons, h]

/-- `buildReport` only reads the normalized rows through `groupRows`. -/
lemma buildReport_congr (rows rows2 : List NormRow)
    (h : ∀ c ∈ targetCategories, groupRows rows c = groupRows rows2 c) :
    buildReport rows = buildReport rows2 := by
  have hagg : reindexed rows = reindexed rows2 := by
    unfold reindexed
    apply List.map_congr_left
    intro c hc
    have := h c hc
    simp [aggRow, this]
  simp [buildReport, hagg]

/-! ## Claims -/

/-- Claim C1: the Aggregator's output always has exactly two data rows,
labelled "Primary Packaging" and "Secondary Packaging" in that fixed
order; a fixed category with no matching input rows yields the all-zero
row; and rows whose category label is outside the fixed list are
excluded entirely (filtering them away changes nothing). -/
theorem spec_C1 (rows : List NormRow) :
    ((reindexed rows).map LabeledRow.label =
        ["Primary Packaging", "Secondary Packaging"])
    ∧ (∀ c ∈ targetCategories, groupRows rows c = [] →
        aggRow rows c = zeroSumRow)
    ∧ (reindexed (rows.filter recognizedRow) = reindexed rows) := by
  refine ⟨rfl, ?_, ?_⟩
  · intro c _ hempty
    simp [aggRow, zeroSumRow, hempty]
  · unfold reindexed
    apply List.map_congr_left
    intro c hc
    simp [aggRow, groupRows_filter_recognized rows c hc]

/-- Claim C1 witness. -/
theorem spec_C1_witness :
    aggRow [] "Primary Packaging" = zeroSumRow :=
  (spec_C1 []).2.1 "Primary Packaging" (by simp [targetCategories]) rfl

/-- Claim C3: in the final report (the two category rows and the
appended grand-total row) every row's derived total-weight column is
exactly the sum of its seven material columns. -/
theorem spec_C3 (rows : List NormRow) :
    ∀ r ∈ buildReport rows, r.total = rowMaterialTotal r.material := by
  intro r hr
  simp [buildReport, deriveTotals, reindexed, targetCategories,
    grandTotalRow] at hr
  rcases hr with h | h | h
  all_goals subst h
  all_goals simp [rowMaterialTotal, materialCols]
  ring

/-- Claim C3 witness. -/
theorem spec_C3_witness :
    ∃ r, r ∈ buildReport [] ∧ r.total = rowMaterialTotal r.material := by
  refine ⟨(buildReport []).head (by simp [buildReport]), ?_, ?_⟩
  · exact List.head_mem _
  · exact spec_C3 [] _ (List.head_mem _)

/-- Claim C4: the final report is exactly two category rows followed by
one grand-total row, and each numeric column of the grand-total row
(units, the seven materials, and the already-derived total-weight
column) is the sum of that column over exactly the two category rows. -/
theorem spec_C4 (rows : List NormRow) :
    ∃ r1 r2 g, buildReport rows = [r1, r2, g]
      ∧ g.units = r1.units + r2.units
      ∧ (∀ m, g.material m = r1.material m + r2.material m)
      ∧ g.total = r1.total + r2.total := by
  refine ⟨_, _, _, rfl, ?_, ?_, ?_⟩
  all_goals simp [grandTotalRow, deriveTotals, reindexed, targetCategories]

/-- Claim C9: the Presentation Formatter preserves row count and row
order, changes no numeric cell (units, materials, total), relabels the
row labels through the fixed row mapping, and prepends a site column
holding the same value on every row. -/
theorem spec_C9 (site : String) (rows : List FinalRow) :
    ((present site rows).map DisplayRow.units = rows.map FinalRow.units)
    ∧ (∀ m, (present site rows).map (fun r => r.material m) =
        rows.map (fun r => r.material m))
    ∧ ((present site rows).map DisplayRow.total = rows.map FinalRow.total)
    ∧ ((present site rows).map DisplayRow.label =
        rows.map (fun r => rowMapping r.label))
    ∧ ((present site rows).map DisplayRow.site = rows.map (fun _ => site))
    ∧ ((present site rows).length = rows.length) := by
  refine ⟨?_, ?_, ?_, ?_, ?_, ?_⟩ <;>
    simp [present, Function.comp_def, List.map_const]

/-- Claim C5: Filter-and-Normalize never drops a row — its output length
is exactly the number of input rows whose country cell matches the
selection — and in every output row every material cell is a definite
number: 0 when the column was absent from the file or the cell was
missing, and the original value when the column was present and the
cell defined.  (The stage is a total function, so it always succeeds.) -/
theorem spec_C5 (t : RawTable) (sel : String) :
    ((filterNormalize t sel).length =
        (t.rows.filter (fun r => r.country = some sel)).length)
    ∧ (∀ r ∈ filterRows t sel, ∀ m : Material,
        (t.hasMaterial m = false → (normalizeRow t r).material m = 0)
        ∧ (r.material m = none → (normalizeRow t r).material m = 0)
        ∧ (∀ q : ℚ, t.hasMaterial m = true → r.material m = some q →
            (normalizeRow t r).material m = q)) := by
  refine ⟨by simp [filterNormalize, filterRows], ?_⟩
  intro r _ m
  refine ⟨fun h => by simp [normalizeRow, h], ?_, ?_⟩
  · intro h
    simp [normalizeRow, h]
  · intro q h hq
    simp [normalizeRow, h, hq]



/-- Claim C5 witness. -/
theorem spec_C5_witness :
    ((filterNormalize sampleTable "DE").length =
        (sampleTable.rows.filter
          (fun r => r.country = some "DE")).length)
    ∧ ((normalizeRow sampleTable sampleRow).material .paper = 0)
    ∧ ((normalizeRow sampleTable sampleRow).material .plastic = 2) := by
  refine ⟨(spec_C5 sampleTable "DE").1, ?_, ?_⟩
  · exact ((spec_C5 sampleTable "DE").2 sampleRow
      (by simp [filterRows, sampleTable, sampleRow]) .paper).2.1 rfl
  · exact (((spec_C5 sampleTable "DE").2 sampleRow
      (by simp [filterRows, sampleTable, sampleRow]) .plastic).2.2 2 rfl rfl)

/-- Claim C7: whenever the decoded table lacks the
`SHIP_TO_COUNTRY_CODE` column, the pipeline stops with the schema
error (no report value is produced), whatever the rest of the table
holds, and the schema error message contains both the encoding that
succeeded and the name of the missing column. -/
theorem spec_C7 (t : RawTable) (enc sel : String)
    (h : t.hasCountry = false) :
    runPipeline t enc sel = .error (.schemaError enc)
    ∧ (∃ pre mid post : String, errorMessage (.schemaError enc) =
        pre ++ enc ++ (mid ++ "SHIP_TO_COUNTRY_CODE" ++ post)) := by
  constructor
  · simp [runPipeline, h]
  · exact ⟨"❌ 错误：读取成功 (编码: ", ")，但找不到 \x27",
      "\x27 列。", by simp [errorMessage]⟩


/-- Claim C7 witness. -/
theorem spec_C7_witness :
    runPipeline noCountryTable "utf-8" "DE" =
      .error (.schemaError "utf-8")
    ∧ (∃ pre mid post : String, errorMessage (.schemaError "utf-8") =
        pre ++ "utf-8" ++ (mid ++ "SHIP_TO_COUNTRY_CODE" ++ post)) :=
  spec_C7 noCountryTable "utf-8" "DE" rfl

/-- Claim C8: when the country column exists but holds no usable
(non-missing) value, the pipeline stops with the empty-selection error
and produces no report value. -/
theorem spec_C8 (t : RawTable) (enc sel : String)
    (h1 : t.hasCountry = true)
    (h2 : t.rows.filterMap RawRow.country = []) :
    runPipeline t enc sel = .error .emptySelection := by
  have hav : availableCountries t = [] := by
    simp [availableCountries, h2, sortStrings]
  simp [runPipeline, h1, hav]


/-- Claim C8 witness. -/
theorem spec_C8_witness :
    runPipeline noUsableCountryTable "utf-8" "DE" =
      .error .emptySelection :=
  spec_C8 noUsableCountryTable "utf-8" "DE" rfl rfl

/-- Claim C10: a row whose category cell is missing is dropped by the
grouping (pandas groups only non-missing keys), so it contributes to no
category row and not to the grand total: even when its country matches
the selection, removing it from the table leaves the whole report
unchanged. -/
theorem spec_C10 (t : RawTable) (sel : String) (w : RawRow)
    (pre post : List RawRow)
    (hrows : t.rows = pre ++ w :: post)
    (hcat : w.category = none)
    (hctry : w.country = some sel) :
    buildReport (filterNormalize t sel) =
      buildReport (filterNormalize { t with rows := pre ++ post } sel) := by
  have hsplit : filterNormalize t sel =
      (pre.filter (fun r => r.country = some sel)).map (normalizeRow t)
        ++ normalizeRow t w ::
          (post.filter (fun r => r.country = some sel)).map
            (normalizeRow t) := by
    simp [filterNormalize, filterRows, hrows, List.filter_append,
      List.filter_cons, hctry]
  have hsplit2 : filterNormalize { t with rows := pre ++ post } sel =
      (pre.filter (fun r => r.country = some sel)).map (normalizeRow t)
        ++ (post.filter (fun r => r.country = some sel)).map
            (normalizeRow t) := by
    simp [filterNormalize, filterRows, List.filter_append]
    rfl
  rw [hsplit, hsplit2]
  apply buildReport_congr
  intro c _
  exact groupRows_skips_none _ _ _ (by simp [normalizeRow, hcat]) c


/-- Claim C10 witness. -/
theorem spec_C10_witness :
    buildReport (filterNormalize missingCategoryTable "DE") =
      buildReport (filterNormalize
        { missingCategoryTable with rows := [sampleRow] } "DE") :=
  spec_C10 missingCategoryTable "DE"
    { sampleRow with category := none } [sampleRow] [] rfl rfl rfl


/-- Claim C2 counterexample: with the country column present and a
usable country value, lacking only the units-sold column does NOT leave
the pipeline successful — the groupby column selection raises
`KeyError: TOTAL_UNITS_SOLD`, caught by the script's outer handler, and
no report is produced. -/
theorem spec_C2_counterexample :
    runPipeline unitsMissingTable "utf-8" "DE" =
      .error (.keyError "TOTAL_UNITS_SOLD") := by
  rfl

/-- Claim C2 as amended: only the seven material-weight columns are
optional.  With the country column present and a usable selection, a
table may lack any subset of the material columns and the pipeline
still succeeds (they are zero-filled); but a table lacking the
packaging-category column fails with `KeyError: EPR_CATEGORY`, and one
lacking the units-sold column fails with `KeyError: TOTAL_UNITS_SOLD`,
producing no report either way. -/
theorem spec_C2_amended (t : RawTable) (enc sel : String)
    (hc : t.hasCountry = true) (hne : availableCountries t ≠ []) :
    (t.hasCategory = false →
      runPipeline t enc sel = .error (.keyError "EPR_CATEGORY"))
    ∧ (t.hasCategory = true → t.hasUnits = false →
      runPipeline t enc sel = .error (.keyError "TOTAL_UNITS_SOLD"))
    ∧ (t.hasCategory = true → t.hasUnits = true →
      runPipeline t enc sel = .ok (present (displayCountryName sel)
        (buildReport (filterNormalize t sel)))) := by
  refine ⟨?_, ?_, ?_⟩
  · intro h
    simp [runPipeline, hc, hne, h]
  · intro h1 h2
    simp [runPipeline, hc, hne, h1, h2]
  · intro h1 h2
    simp [runPipeline, hc, hne, h1, h2]


/-- Claim C2 amended witness: a missing material column alone is
tolerated — the pipeline succeeds on `noPaperTable`. -/
theorem spec_C2_amended_witness :
    runPipeline noPaperTable "utf-8" "DE" =
      .ok (present (displayCountryName "DE")
        (buildReport (filterNormalize noPaperTable "DE"))) :=
  (spec_C2_amended noPaperTable "utf-8" "DE" rfl
    (by intro h; exact List.cons_ne_nil "DE" [] h)).2.2 rfl rfl

/-- The loop's trace is always the two-event pattern over some prefix
of the candidate list: encodings are attempted in list order and the
stream is reset immediately before every attempt. -/
lemma loadLoop_trace {α : Type} (f : String → ReadOutcome α)
    (l : List String) :
    ∃ k, (loadLoop f l).1 = attemptTrace (l.take k) := by
  induction l with
  | nil => exact ⟨0, rfl⟩
  | cons e rest ih =>
    cases h : f e with
    | success t => exact ⟨1, by simp [loadLoop, h, attemptTrace]⟩
    | unicodeError =>
      obtain ⟨k, hk⟩ := ih
      exact ⟨k + 1, by simp [loadLoop, h, attemptTrace, hk]⟩
    | otherError => exact ⟨1, by simp [loadLoop, h, attemptTrace]⟩

/-- When the loop returns a parse, it is the parse of the returned
encoding, that encoding is in the list, and every earlier candidate
failed with an encoding mismatch (so the returned parse is the first
success). -/
lemma loadLoop_ok {α : Type} (f : String → ReadOutcome α) :
    ∀ (l : List String) (t : α) (e : String),
      (loadLoop f l).2 = .ok t e →
      f e = .success t ∧ ∃ k : ℕ, l[k]? = some e ∧
        ∀ j : ℕ, j < k → ∃ e2, l[j]? = some e2 ∧ f e2 = .unicodeError := by
  intro l
  induction l with
  | nil => intro t e h; simp [loadLoop] at h
  | cons x rest ih =>
    intro t e h
    cases hx : f x with
    | success u =>
      simp [loadLoop, hx] at h
      obtain ⟨ht, he⟩ := h
      subst ht
      subst he
      exact ⟨hx, 0, by simp, fun j hj => absurd hj (Nat.not_lt_zero j)⟩
    | unicodeError =>
      have h2 : (loadLoop f rest).2 = .ok t e := by
        simpa [loadLoop, hx] using h
      obtain ⟨hf, k, hk, hb⟩ := ih t e h2
      refine ⟨hf, k + 1, by simpa using hk, ?_⟩
      intro j hj
      cases j with
      | zero => exact ⟨x, by simp, hx⟩
      | succ j =>
        obtain ⟨e2, he2, hu⟩ := hb j (Nat.lt_of_succ_lt_succ hj)
        exact ⟨e2, by simpa using he2, hu⟩
    | otherError => simp [loadLoop, hx] at h

/-- When every candidate encoding mismatches, the loop attempts all of
them and ends in the `return None, None` branch. -/
lemma loadLoop_all_unicode {α : Type} (f : String → ReadOutcome α) :
    ∀ l : List String, (∀ e ∈ l, f e = .unicodeError) →
      loadLoop f l = (attemptTrace l, .decodeFailure) := by
  intro l
  induction l with
  | nil => intro _; rfl
  | cons x rest ih =>
    intro h
    have hx := h x (List.mem_cons_self x rest)
    have hr := ih (fun e he => h e (List.mem_cons_of_mem x he))
    simp [loadLoop, hx, attemptTrace, hr]

/-- Only `UnicodeDecodeError` is caught: the first candidate that fails
with any other exception ends the loop right there — no later encoding
is attempted and the exception propagates. -/
lemma loadLoop_other {α : Type} (f : String → ReadOutcome α) :
    ∀ (l : List String) (k : ℕ) (e : String),
      l[k]? = some e → f e = .otherError →
      (∀ j : ℕ, j < k → ∃ e2, l[j]? = some e2 ∧ f e2 = .unicodeError) →
      loadLoop f l = (attemptTrace (l.take (k + 1)), .raised) := by
  intro l
  induction l with
  | nil => intro k e hk _ _; simp at hk
  | cons x rest ih =>
    intro k e hk hother hb
    cases k with
    | zero =>
      simp at hk
      subst hk
      simp [loadLoop, hother, attemptTrace]
    | succ k =>
      have hx : f x = .unicodeError := by
        obtain ⟨e2, he2, hu⟩ := hb 0 (Nat.succ_pos k)
        simp at he2
        rwa [he2]
      have hr := ih k e (by simpa using hk) hother (fun j hj => by
        obtain ⟨e2, he2, hu⟩ := hb (j + 1) (Nat.succ_lt_succ hj)
        exact ⟨e2, by simpa using he2, hu⟩)
      simp [loadLoop, hx, hr, attemptTrace]

/-- Claim C6: `load_csv_safe` (i) attempts encodings from its fixed
ordered list in order, seeking the stream back to the start before
every attempt (the trace is the seek-attempt pattern over a prefix of
the list); (ii) a returned table is the parse under the returned
encoding, and every candidate before it mismatched — the first
success is returned together with its encoding; (iii) if every
candidate mismatches the result is the `None` pair (DecodeFailure);
and (iv) only an encoding mismatch is retried — a candidate failing
with any other error ends the loop immediately and the error
propagates. -/
theorem spec_C6 {α : Type} (f : String → ReadOutcome α) :
    (∃ k, (loadCsvSafe f).1 = attemptTrace (encodings.take k))
    ∧ (∀ (t : α) (e : String), (loadCsvSafe f).2 = .ok t e →
        f e = .success t ∧ ∃ k : ℕ, encodings[k]? = some e ∧
          ∀ j : ℕ, j < k → ∃ e2, encodings[j]? = some e2 ∧
            f e2 = .unicodeError)
    ∧ ((∀ e ∈ encodings, f e = .unicodeError) →
        (loadCsvSafe f).2 = .decodeFailure)
    ∧ (∀ (k : ℕ) (e : String), encodings[k]? = some e →
        f e = .otherError →
        (∀ j : ℕ, j < k → ∃ e2, encodings[j]? = some e2 ∧
          f e2 = .unicodeError) →
        loadCsvSafe f = (attemptTrace (encodings.take (k + 1)),
          .raised)) := by
  refine ⟨loadLoop_trace f encodings, loadLoop_ok f encodings, ?_, ?_⟩
  · intro h
    rw [show (loadCsvSafe f) = loadLoop f encodings from rfl,
      loadLoop_all_unicode f encodings h]
  · intro k e hk hother hb
    exact loadLoop_other f encodings k e hk hother hb

/-- Claim C6 witness. -/
theorem spec_C6_witness :
    ((loadCsvSafe (fun _ : String =>
        (ReadOutcome.unicodeError : ReadOutcome Nat))).2 =
      LoadResult.decodeFailure)
    ∧ (loadCsvSafe (fun e : String =>
        if e = "utf-8" then (ReadOutcome.otherError : ReadOutcome Nat)
        else .unicodeError) =
      (attemptTrace (encodings.take 1), .raised)) := by
  constructor
  · exact (spec_C6 (fun _ : String =>
      (ReadOutcome.unicodeError : ReadOutcome Nat))).2.2.1
      (fun _ _ => rfl)
  · exact (spec_C6 (fun e : String =>
      if e = "utf-8" then (ReadOutcome.otherError : ReadOutcome Nat)
      else .unicodeError)).2.2.2 0 "utf-8" rfl (by simp)
      (fun j hj => absurd hj (Nat.not_lt_zero j))
